import Mathlib

/-!
Shallow embedding of `dialpad.py` (ablava/dialpad): a batch script that
creates, updates (suspend/reactivate) and deletes users of a hosted
telephony directory through its HTTP admin API.

Modelling choices:
* Remote behavior is an oracle (`World`): for each kind of HTTP request it
  returns either `.error ()` (the Python call raised an exception) or
  `.ok (status, body)`.  Configuration globals (`DOMAIN`, `DEPTDICTIONARY`,
  `FROM`, `TO`) read from `dialpad_settings.py` live in the same structure.
* Python exceptions are an explicit `Except PyExc` channel; every
  `try/except` of the source is a `match` on that channel.  `row["k"]` on a
  dict without the key is `.error .keyError`.
* Every function also returns the list of outward calls it issued
  (HTTP requests and mail submissions), so claims of the form
  "no create call is issued" are statements about that trace.
* Python 2 `str` values are `String`; `x in s` (substring test) is `pyIn`.
* The per-field validation loops iterate `locals()`, whose CPython
  iteration order over these small dicts is unspecified; the embedding
  checks fields in parameter order.  No claim depends on which of several
  empty fields is reported, only that some empty field is named.
-/

namespace Dialpad

/-- Python exception values that can flow through the script. -/
inductive PyExc where
  | keyError : PyExc
  | connError : PyExc
deriving DecidableEq, Repr

/-- Outward calls the script can issue: directory lookups, user
create/update/delete HTTP requests, and mail submissions. -/
inductive Call where
  | lookup (upn : String) : Call
  | createCall (upn givenName sn office : String) : Call
  | updateCall (upn action : String) : Call
  | deleteCall (upn : String) : Call
  | mail (frm toA subject text : String) : Call
deriving DecidableEq, Repr

/-- Remote behavior oracle plus the configuration constants of
`dialpad_settings.py`.  Each `...Resp` field gives the outcome of the
corresponding HTTP request: `.error ()` means the call raised, `.ok (s, b)`
means it returned HTTP status `s` with body `b`. -/
structure World where
  domain : String
  dept : String → Option String
  FROM : String
  TO : String
  lookupResp : String → Except Unit (Nat × String)
  createResp : String → String → String → String → Except Unit (Nat × String)
  updateResp : String → String → Except Unit (Nat × String)
  deleteResp : String → Except Unit (Nat × String)
  mailResp : Except Unit Unit

/-- Check whether the first list occurs as a leading segment of the second. -/
def matchesAt : List Char → List Char → Bool
  | [], _ => true
  | _ :: _, [] => false
  | c :: cs, d :: ds => c == d && matchesAt cs ds

/-- Check whether the first list occurs as a contiguous sublist of the second. -/
def containsSub : List Char → List Char → Bool
  | n, [] => matchesAt n []
  | n, c :: t => matchesAt n (c :: t) || containsSub n t

/-- Python `needle in hay` on strings: substring containment. -/
def pyIn (needle hay : String) : Bool :=
  containsSub needle.toList hay.toList

/-- Message produced when a required input value is empty
(`"ERROR: Missing an expected input value for " + _item + " in input file."`). -/
def missingMsg (f : String) : String :=
  "ERROR: Missing an expected input value for " ++ f ++ " in input file."

/-- Try-block of `findUser` (dialpad.py lines 422-438).  `.ok (some b)`
models `return b` from inside the block, `.ok none` models falling out of
the block, `.error` models an uncaught exception inside it. -/
def findUserTry (upn : String) (w : World) : Except PyExc (Option Bool) × List Call :=
  match w.lookupResp upn with
  | .error _ => (.error .connError, [Call.lookup upn])
  | .ok (status, data) =>
    if status = 200 then
      if ¬ pyIn upn data then (.ok (some false), [Call.lookup upn])
      else (.ok none, [Call.lookup upn])
    else (.ok none, [Call.lookup upn])

/-- `findUser(upn)` (dialpad.py lines 411-444): the `except` clause only
logs, and the function ends with `return True`, so every path that did not
`return False` yields `true`. -/
def findUser (upn : String) (w : World) : Bool × List Call :=
  match (findUserTry upn w).1 with
  | .ok (some b) => (b, (findUserTry upn w).2)
  | .ok none => (true, (findUserTry upn w).2)
  | .error _ => (true, (findUserTry upn w).2)

/-- `findOfficeKey(ou)` (dialpad.py lines 447-457): `DEPTDICTIONARY.get(ou, None)`. -/
def findOfficeKey (ou : String) (w : World) : Option String :=
  w.dept ou

/-- The `office` URL fragment computed in `create` (lines 190-195):
`if office_key:` is Python truthiness, so both `None` and `""` leave the
fragment empty. -/
def officeOf (ou : String) (w : World) : String :=
  match findOfficeKey ou w with
  | none => ""
  | some k => if k = "" then "" else "&office_key=" ++ k

/-- Try-block of `sendMail` (lines 471-476): submit the message, any
failure raises inside the block. -/
def sendMailTry (frm toA subject text : String) (w : World) : Except PyExc Unit × List Call :=
  match w.mailResp with
  | .error _ => (.error .connError, [Call.mail frm toA subject text])
  | .ok _ => (.ok (), [Call.mail frm toA subject text])

/-- `sendMail` (lines 460-482): the `except` clause only logs, so the
function always returns normally. -/
def sendMail (frm toA subject text : String) (w : World) : Unit × List Call :=
  ((), (sendMailTry frm toA subject text w).2)

/-- Try-block of `create` (lines 197-220): issue the create request; a 200
status yields the success message, any other status the error message. -/
def createTry (upn givenName sn office : String) (w : World) :
    Except PyExc String × List Call :=
  match w.createResp upn givenName sn office with
  | .error _ => (.error .connError, [Call.createCall upn givenName sn office])
  | .ok (status, _) =>
    if status ≠ 200 then
      (.ok "ERROR: could not create Dialpad user.", [Call.createCall upn givenName sn office])
    else
      (.ok "SUCCESS: user was created in Dialpad.", [Call.createCall upn givenName sn office])

/-- `create(username, givenName, sn, ou)` (dialpad.py lines 159-229). -/
def create (username givenName sn ou : String) (w : World) :
    Except PyExc String × List Call :=
  if username = "" then (.ok (missingMsg "username"), [])
  else if givenName = "" then (.ok (missingMsg "givenName"), [])
  else if sn = "" then (.ok (missingMsg "sn"), [])
  else if ou = "" then (.ok (missingMsg "ou"), [])
  else
    let upn := username ++ "@" ++ w.domain
    let fu := findUser upn w
    if fu.1 then (.ok "ERROR: username already exists in Dialpad!", fu.2)
    else
      let office := officeOf ou w
      let ct := createTry upn givenName sn office w
      match ct.1 with
      | .ok r => (.ok r, fu.2 ++ ct.2)
      | .error _ => (.ok "ERROR: could not create Dialpad user.", fu.2 ++ ct.2)

/-- Try-block of `update` (lines 287-309): issue the suspend/reactivate
request and map the status to a result message. -/
def updateTry (upn action : String) (w : World) : Except PyExc String × List Call :=
  match w.updateResp upn action with
  | .error _ => (.error .connError, [Call.updateCall upn action])
  | .ok (status, _) =>
    if status ≠ 200 then
      (.ok "ERROR: could not update Dialpad user.", [Call.updateCall upn action])
    else
      (.ok "SUCCESS: user was updated in Dialpad.", [Call.updateCall upn action])

/-- `update(username, newusername, loginDisabled)` (dialpad.py lines 232-317). -/
def update (username newusername loginDisabled : String) (w : World) :
    Except PyExc String × List Call :=
  if username = "" then (.ok (missingMsg "username"), [])
  else if newusername = "" then (.ok (missingMsg "newusername"), [])
  else if loginDisabled = "" then (.ok (missingMsg "loginDisabled"), [])
  else
    let upn := username ++ "@" ++ w.domain
    let fu := findUser upn w
    if ¬ fu.1 then (.ok "ERROR: user could not be found in Dialpad!", fu.2)
    else if username ≠ newusername then
      let sm := sendMail w.FROM w.TO
          ("Rename Dialpad user: " ++ username ++ " to " ++ newusername)
          "Please rename Dialpad user account manually." w
      (.ok "ERROR: renaming users in Dialpad is not supported - emailed Dialpad admin!",
        fu.2 ++ sm.2)
    else
      let action := if loginDisabled = "True" then "suspend" else "reactivate"
      let ut := updateTry upn action w
      match ut.1 with
      | .ok r => (.ok r, fu.2 ++ ut.2)
      | .error _ => (.ok "ERROR: Could not update Dialpad user.", fu.2 ++ ut.2)

/-- Try-block of `delete` (lines 346-368). -/
def deleteTry (upn : String) (w : World) : Except PyExc String × List Call :=
  match w.deleteResp upn with
  | .error _ => (.error .connError, [Call.deleteCall upn])
  | .ok (status, _) =>
    if status ≠ 200 then
      (.ok "ERROR: could not delete user in Dialpad.", [Call.deleteCall upn])
    else
      (.ok "SUCCESS: user deleted in Dialpad.", [Call.deleteCall upn])

/-- `delete(username)` (dialpad.py lines 320-376). -/
def delete (username : String) (w : World) : Except PyExc String × List Call :=
  if username = "" then (.ok (missingMsg "username"), [])
  else
    let upn := username ++ "@" ++ w.domain
    let fu := findUser upn w
    if ¬ fu.1 then (.ok "ERROR: user could not be found in Dialpad!", fu.2)
    else
      let dt := deleteTry upn w
      match dt.1 with
      | .ok r => (.ok r, fu.2 ++ dt.2)
      | .error _ => (.ok "ERROR: Could not delete Dialpad user.", fu.2 ++ dt.2)

/-- One parsed entry of the input JSON's `useractions` array.  A field is
`none` when the key is absent from the JSON object and `some v` when it is
present with string value `v` (Python raises `KeyError` on `row["k"]` for
an absent key). -/
structure InRec where
  action : Option String
  username : Option String
  newusername : Option String
  loginDisabled : Option String
  givenName : Option String
  sn : Option String
  primO : Option String
deriving DecidableEq, Repr

/-- One data row of the output CSV: action, username, result. -/
def OutRow : Type := String × String × String

instance : DecidableEq OutRow := by
  unfold OutRow
  infer_instance

/-- Access `row["k"]`: raises `KeyError` when the key is absent. -/
def need (o : Option String) (k : String → Except PyExc OutRow × List Call) :
    Except PyExc OutRow × List Call :=
  match o with
  | none => (.error .keyError, [])
  | some s => k s

/-- Body of one iteration of the loop in `main` (dialpad.py lines 118-135):
dispatch on `row["action"]`, call the handler, and produce the CSV row
`[row["action"], row["username"], result]`.  Field accesses occur in source
order; any absent key raises `KeyError` out of the iteration. -/
def processRow (row : InRec) (w : World) : Except PyExc OutRow × List Call :=
  need row.action fun a =>
    if a = "create" then
      need row.username fun u =>
      need row.givenName fun g =>
      need row.sn fun s =>
      need row.primO fun p =>
        let c := create u g s p w
        match c.1 with
        | .ok r => (.ok (a, u, r), c.2)
        | .error e => (.error e, c.2)
    else if a = "update" then
      need row.username fun u =>
      need row.newusername fun nu =>
      need row.loginDisabled fun ld =>
        let c := update u nu ld w
        match c.1 with
        | .ok r => (.ok (a, u, r), c.2)
        | .error e => (.error e, c.2)
    else if a = "delete" then
      need row.username fun u =>
        let c := delete u w
        match c.1 with
        | .ok r => (.ok (a, u, r), c.2)
        | .error e => (.error e, c.2)
    else
      need row.username fun u => (.ok (a, u, "ERROR: Unrecognized action."), [])

/-- The `for row in reader["useractions"]` loop of `main` (lines 118-148):
returns the data rows written to the CSV, the calls issued, and whether the
loop was aborted by an exception.  An exception inside an iteration is
caught by the batch-level `except Exception` handler (lines 141-148), so
the row of the failing record and all later records are never written. -/
def runBatch (rows : List InRec) (w : World) : List OutRow × List Call × Bool :=
  match rows with
  | [] => ([], [], false)
  | r :: rs =>
    let p := processRow r w
    match p.1 with
    | .ok o =>
      let rest := runBatch rs w
      (o :: rest.1, p.2 ++ rest.2.1, rest.2.2)
    | .error _ => ([], p.2, true)

/-- Check that a record carries every key that its iteration of the `main`
loop reads: `action` always, plus the handler arguments of the dispatched
action, plus `username` for the CSV row. -/
def hasKeys (r : InRec) : Bool :=
  match r.action with
  | none => false
  | some a =>
    if a = "create" then
      r.username.isSome && r.givenName.isSome && r.sn.isSome && r.primO.isSome
    else if a = "update" then
      r.username.isSome && r.newusername.isSome && r.loginDisabled.isSome
    else
      r.username.isSome

/-- Action and username of a record as they appear in its CSV row. -/
def rowKey (r : InRec) : String × String :=
  (r.action.getD "", r.username.getD "")

/-- The existence lookup failed entirely: the HTTP call raised, or it
returned a non-200 status. -/
def lookupFailed (upn : String) (w : World) : Prop :=
  w.lookupResp upn = .error () ∨ ∃ s b, w.lookupResp upn = .ok (s, b) ∧ s ≠ 200

/-- Whether a call is a mail submission. -/
def isMailCall : Call → Bool
  | .mail _ _ _ _ => true
  | _ => false

/-- Whether a call is a suspend/reactivate HTTP request. -/
def isUpdateCall : Call → Bool
  | .updateCall _ _ => true
  | _ => false

/-- Whether a call is a create HTTP request. -/
def isCreateCall : Call → Bool
  | .createCall _ _ _ _ => true
  | _ => false

/-- Whether a call is a delete HTTP request. -/
def isDeleteCall : Call → Bool
  | .deleteCall _ => true
  | _ => false

/-- Fixture: a world whose directory is empty (every lookup returns HTTP
200 with a body containing no principal name), whose remote operations and
mail delivery all succeed, and whose office mapping is the sample one of
`dialpad_settings.py` (Admissions has a key, Biology and History map to the
empty string). -/
def wEmptyDir : World :=
  { domain := "d.edu"
    dept := fun ou =>
      if ou = "Admissions" then some "gdfsgds546456bdcbbc"
      else if ou = "Biology" then some ""
      else if ou = "History" then some ""
      else none
    FROM := "from@d.edu"
    TO := "to@d.edu"
    lookupResp := fun _ => .ok (200, "")
    createResp := fun _ _ _ _ => .ok (200, "created")
    updateResp := fun _ _ => .ok (200, "updated")
    deleteResp := fun _ => .ok (200, "deleted")
    mailResp := .ok () }

/-- Fixture: like `wEmptyDir`, but every lookup returns a body containing
the queried principal name, so every user exists. -/
def wHasUser : World :=
  { wEmptyDir with lookupResp := fun upn => .ok (200, "user " ++ upn ++ " found") }

/-- Fixture: like `wEmptyDir`, but the lookup HTTP call raises. -/
def wLookupDown : World :=
  { wEmptyDir with lookupResp := fun _ => .error () }

/-- Fixture: like `wEmptyDir`, but the lookup returns HTTP 500. -/
def wLookup500 : World :=
  { wEmptyDir with lookupResp := fun _ => .ok (500, "server error") }

/-- Fixture record: a well-formed create request (the end-to-end example of
the spec, all seven keys present). -/
def recCreateJdoe : InRec :=
  ⟨some "create", some "jdoe", some "jdoe", some "False", some "Jane", some "Doe",
    some "Biology"⟩

/-- Fixture record: a well-formed delete request (only the keys its
processing reads). -/
def recDeleteAnn : InRec :=
  ⟨some "delete", some "ann", none, none, none, none, none⟩

/-- Fixture record: a delete request whose `username` key is absent
entirely. -/
def recNoUsernameKey : InRec :=
  ⟨some "delete", none, none, none, none, none, none⟩

/-- Fixture record: a create request whose `givenName` key is absent
entirely. -/
def recNoGivenNameKey : InRec :=
  ⟨some "create", some "bob", some "bob", some "False", none, some "Bobson",
    some "Biology"⟩

/-! Helper lemmas about the embedded functions. -/

theorem findUserTry_snd (upn : String) (w : World) :
    (findUserTry upn w).2 = [Call.lookup upn] := by
  unfold findUserTry
  cases hl : w.lookupResp upn with
  | error e => rfl
  | ok p =>
    obtain ⟨st, b⟩ := p
    dsimp only
    split
    · split <;> rfl
    · rfl

theorem findUser_snd (upn : String) (w : World) :
    (findUser upn w).2 = [Call.lookup upn] := by
  unfold findUser
  split <;> exact findUserTry_snd upn w

theorem findUser_false_iff (upn : String) (w : World) :
    (findUser upn w).1 = false ↔
      ∃ b, w.lookupResp upn = .ok (200, b) ∧ pyIn upn b = false := by
  unfold findUser findUserTry
  cases hl : w.lookupResp upn with
  | error e => simp
  | ok p =>
    obtain ⟨st, b⟩ := p
    dsimp only
    by_cases hst : st = 200
    · subst hst
      by_cases hin : pyIn upn b = true
      · simp [hin]
      · simp [hin]
    · simp [hst]

theorem findUser_pair (upn : String) (w : World) :
    findUser upn w = ((findUser upn w).1, [Call.lookup upn]) := by
  rw [← findUser_snd upn w]

theorem findUser_of_failed (upn : String) (w : World) (h : lookupFailed upn w) :
    findUser upn w = (true, [Call.lookup upn]) := by
  rw [findUser_pair upn w]
  rcases Bool.eq_false_or_eq_true (findUser upn w).1 with ht | hf
  case inl => rw [ht]
  · exfalso
    rcases (findUser_false_iff upn w).mp hf with ⟨b, hb, _⟩
    rcases h with h | ⟨s, b', hb', hs⟩
    · rw [hb] at h
      cases h
    · rw [hb] at hb'
      injection hb' with h'
      injection h' with h1 h2
      exact hs h1.symm

theorem create_no_raise (u g s p : String) (w : World) :
    ∃ r t, create u g s p w = (.ok r, t) := by
  unfold create
  dsimp only
  repeat' first
    | exact ⟨_, _, rfl⟩
    | split

theorem update_no_raise (u nu ld : String) (w : World) :
    ∃ r t, update u nu ld w = (.ok r, t) := by
  unfold update
  dsimp only
  repeat' first
    | exact ⟨_, _, rfl⟩
    | split

theorem delete_no_raise (u : String) (w : World) :
    ∃ r t, delete u w = (.ok r, t) := by
  unfold delete
  dsimp only
  repeat' first
    | exact ⟨_, _, rfl⟩
    | split

theorem create_already_exists (u g s p : String) (w : World)
    (hu : ¬ u = "") (hg : ¬ g = "") (hs : ¬ s = "") (hp : ¬ p = "")
    (hex : (findUser (u ++ "@" ++ w.domain) w).1 = true) :
    create u g s p w = (.ok "ERROR: username already exists in Dialpad!",
      [Call.lookup (u ++ "@" ++ w.domain)]) := by
  unfold create
  rw [if_neg hu, if_neg hg, if_neg hs, if_neg hp]
  dsimp only
  rw [if_pos hex, findUser_snd]

theorem create_trace_no_lookup_success (u g s p : String) (w : World) (b : String)
    (hu : ¬ u = "") (hg : ¬ g = "") (hs : ¬ s = "") (hp : ¬ p = "")
    (hne : (findUser (u ++ "@" ++ w.domain) w).1 = false)
    (hresp : w.createResp (u ++ "@" ++ w.domain) g s (officeOf p w) = .ok (200, b)) :
    create u g s p w = (.ok "SUCCESS: user was created in Dialpad.",
      [Call.lookup (u ++ "@" ++ w.domain),
       Call.createCall (u ++ "@" ++ w.domain) g s (officeOf p w)]) := by
  unfold create createTry
  rw [if_neg hu, if_neg hg, if_neg hs, if_neg hp]
  dsimp only
  rw [hne, hresp]
  dsimp only
  rw [if_neg (by simp), findUser_snd]
  rfl

theorem update_not_found (u nu ld : String) (w : World)
    (hu : ¬ u = "") (hnu : ¬ nu = "") (hld : ¬ ld = "")
    (hne : (findUser (u ++ "@" ++ w.domain) w).1 = false) :
    update u nu ld w = (.ok "ERROR: user could not be found in Dialpad!",
      [Call.lookup (u ++ "@" ++ w.domain)]) := by
  unfold update
  rw [if_neg hu, if_neg hnu, if_neg hld]
  dsimp only
  rw [hne, if_pos (by decide), findUser_snd]

theorem delete_not_found (u : String) (w : World)
    (hu : ¬ u = "")
    (hne : (findUser (u ++ "@" ++ w.domain) w).1 = false) :
    delete u w = (.ok "ERROR: user could not be found in Dialpad!",
      [Call.lookup (u ++ "@" ++ w.domain)]) := by
  unfold delete
  rw [if_neg hu]
  dsimp only
  rw [hne, if_pos (by decide), findUser_snd]

theorem update_rename (u nu ld : String) (w : World)
    (hu : ¬ u = "") (hnu : ¬ nu = "") (hld : ¬ ld = "")
    (hex : (findUser (u ++ "@" ++ w.domain) w).1 = true)
    (hdiff : u ≠ nu) :
    update u nu ld w =
      (.ok "ERROR: renaming users in Dialpad is not supported - emailed Dialpad admin!",
       [Call.lookup (u ++ "@" ++ w.domain),
        Call.mail w.FROM w.TO ("Rename Dialpad user: " ++ u ++ " to " ++ nu)
          "Please rename Dialpad user account manually."]) := by
  unfold update sendMail sendMailTry
  rw [if_neg hu, if_neg hnu, if_neg hld]
  dsimp only
  rw [hex, if_neg (by decide), if_pos hdiff, findUser_snd]
  cases w.mailResp <;> rfl

theorem update_state (u ld : String) (w : World) (st : Nat) (b : String)
    (hu : ¬ u = "") (hld : ¬ ld = "")
    (hex : (findUser (u ++ "@" ++ w.domain) w).1 = true)
    (hresp : w.updateResp (u ++ "@" ++ w.domain)
        (if ld = "True" then "suspend" else "reactivate") = .ok (st, b)) :
    update u u ld w =
      (.ok (if st = 200 then "SUCCESS: user was updated in Dialpad."
            else "ERROR: could not update Dialpad user."),
       [Call.lookup (u ++ "@" ++ w.domain),
        Call.updateCall (u ++ "@" ++ w.domain)
          (if ld = "True" then "suspend" else "reactivate")]) := by
  unfold update updateTry
  rw [if_neg hu, if_neg hu, if_neg hld]
  dsimp only
  rw [hex, if_neg (by decide), if_neg (show ¬ u ≠ u from fun h => h rfl), hresp]
  dsimp only
  by_cases h200 : st = 200
  · rw [if_neg (by simp [h200]), if_pos h200, findUser_snd]
    rfl
  · rw [if_pos (by simp [h200]), if_neg h200, findUser_snd]
    rfl

theorem updateTry_ok (upn a : String) (w : World) (r : String)
    (h : (updateTry upn a w).1 = .ok r) :
    r = "ERROR: could not update Dialpad user." ∨
    r = "SUCCESS: user was updated in Dialpad." := by
  unfold updateTry at h
  cases hresp : w.updateResp upn a with
  | error e =>
    rw [hresp] at h
    cases h
  | ok sb =>
    obtain ⟨st, b⟩ := sb
    rw [hresp] at h
    dsimp only at h
    split at h
    · injection h with h'
      exact Or.inl h'.symm
    · injection h with h'
      exact Or.inr h'.symm

theorem update_proceeds (u nu ld : String) (w : World)
    (hu : ¬ u = "") (hnu : ¬ nu = "") (hld : ¬ ld = "")
    (hex : (findUser (u ++ "@" ++ w.domain) w).1 = true) :
    ∃ r, (update u nu ld w).1 = .ok r ∧
      r ≠ "ERROR: user could not be found in Dialpad!" := by
  unfold update
  rw [if_neg hu, if_neg hnu, if_neg hld]
  dsimp only
  rw [hex, if_neg (by decide)]
  split
  · exact ⟨_, rfl, by decide⟩
  · split
    next r heq =>
      refine ⟨r, rfl, ?_⟩
      rcases updateTry_ok _ _ _ _ heq with h | h <;> subst h <;> decide
    next => exact ⟨_, rfl, by decide⟩

theorem delete_proceeds (u : String) (w : World)
    (hu : ¬ u = "")
    (hex : (findUser (u ++ "@" ++ w.domain) w).1 = true) :
    (delete u w).2 = [Call.lookup (u ++ "@" ++ w.domain),
      Call.deleteCall (u ++ "@" ++ w.domain)] ∧
    ∃ r, (delete u w).1 = .ok r ∧
      r ≠ "ERROR: user could not be found in Dialpad!" := by
  unfold delete deleteTry
  rw [if_neg hu]
  dsimp only
  rw [hex, if_neg (by decide)]
  cases hd : w.deleteResp (u ++ "@" ++ w.domain) with
  | error e =>
    dsimp only
    rw [findUser_snd]
    exact ⟨rfl, _, rfl, by decide⟩
  | ok sb =>
    obtain ⟨st, b⟩ := sb
    dsimp only
    by_cases hst : st ≠ 200
    · rw [if_pos hst, findUser_snd]
      exact ⟨rfl, _, rfl, by decide⟩
    · rw [if_neg hst, findUser_snd]
      exact ⟨rfl, _, rfl, by decide⟩

theorem create_missing (u g s p : String) (w : World)
    (h : u = "" ∨ g = "" ∨ s = "" ∨ p = "") :
    ∃ fv ∈ [("username", u), ("givenName", g), ("sn", s), ("ou", p)],
      fv.2 = "" ∧ create u g s p w = (.ok (missingMsg fv.1), []) := by
  by_cases hu : u = ""
  · exact ⟨("username", u), by simp, hu, by unfold create; rw [if_pos hu]⟩
  · by_cases hg : g = ""
    · exact ⟨("givenName", g), by simp, hg,
        by unfold create; rw [if_neg hu, if_pos hg]⟩
    · by_cases hs : s = ""
      · exact ⟨("sn", s), by simp, hs,
          by unfold create; rw [if_neg hu, if_neg hg, if_pos hs]⟩
      · by_cases hp : p = ""
        · exact ⟨("ou", p), by simp, hp,
            by unfold create; rw [if_neg hu, if_neg hg, if_neg hs, if_pos hp]⟩
        · exact absurd h (by simp [hu, hg, hs, hp])

theorem update_missing (u nu ld : String) (w : World)
    (h : u = "" ∨ nu = "" ∨ ld = "") :
    ∃ fv ∈ [("username", u), ("newusername", nu), ("loginDisabled", ld)],
      fv.2 = "" ∧ update u nu ld w = (.ok (missingMsg fv.1), []) := by
  by_cases hu : u = ""
  · exact ⟨("username", u), by simp, hu, by unfold update; rw [if_pos hu]⟩
  · by_cases hnu : nu = ""
    · exact ⟨("newusername", nu), by simp, hnu,
        by unfold update; rw [if_neg hu, if_pos hnu]⟩
    · by_cases hld : ld = ""
      · exact ⟨("loginDisabled", ld), by simp, hld,
          by unfold update; rw [if_neg hu, if_neg hnu, if_pos hld]⟩
      · exact absurd h (by simp [hu, hnu, hld])

theorem delete_missing (u : String) (w : World) (h : u = "") :
    delete u w = (.ok (missingMsg "username"), []) := by
  unfold delete
  rw [if_pos h]

theorem processRow_ok (r : InRec) (w : World) (h : hasKeys r = true) :
    ∃ res t, processRow r w =
      (.ok (r.action.getD "", r.username.getD "", res), t) := by
  unfold hasKeys at h
  unfold processRow need
  cases hA : r.action with
  | none =>
    rw [hA] at h
    cases h
  | some a =>
    rw [hA] at h
    dsimp only at h ⊢
    by_cases hc : a = "create"
    · rw [if_pos hc] at h ⊢
      cases hU : r.username with
      | none => rw [hU] at h; simp at h
      | some u =>
        rw [hU] at h
        cases hG : r.givenName with
        | none => rw [hG] at h; simp at h
        | some g =>
          rw [hG] at h
          cases hS : r.sn with
          | none => rw [hS] at h; simp at h
          | some s =>
            rw [hS] at h
            cases hP : r.primO with
            | none => rw [hP] at h; simp at h
            | some p =>
              obtain ⟨res, t, hcr⟩ := create_no_raise u g s p w
              exact ⟨res, (create u g s p w).2, by dsimp only; rw [hcr]; rfl⟩
    · rw [if_neg hc] at h ⊢
      by_cases hup : a = "update"
      · rw [if_pos hup] at h ⊢
        cases hU : r.username with
        | none => rw [hU] at h; simp at h
        | some u =>
          rw [hU] at h
          cases hN : r.newusername with
          | none => rw [hN] at h; simp at h
          | some nu =>
            rw [hN] at h
            cases hL : r.loginDisabled with
            | none => rw [hL] at h; simp at h
            | some ld =>
              obtain ⟨res, t, hcr⟩ := update_no_raise u nu ld w
              exact ⟨res, (update u nu ld w).2, by dsimp only; rw [hcr]; rfl⟩
      · rw [if_neg hup] at h ⊢
        cases hU : r.username with
        | none => rw [hU] at h; simp at h
        | some u =>
          rw [hU] at h
          by_cases hd : a = "delete"
          · rw [if_pos hd]
            obtain ⟨res, t, hcr⟩ := delete_no_raise u w
            exact ⟨res, (delete u w).2, by dsimp only; rw [hcr]; rfl⟩
          · rw [if_neg hd]
            exact ⟨"ERROR: Unrecognized action.", [], rfl⟩

/-! Claim theorems. -/

/-- Claim C1 (corrected): for every batch in which each record carries
every key its processing reads (the action key, the username key, and the
dispatched handler's argument keys), and for every remote behavior, the
output report contains exactly one result row per input record, in input
order: row i carries the action and username of record i.  This holds even
when a required field is present but empty and when any remote call
raises.  The claim as stated is false for a record missing a required key
entirely: that record raises `KeyError`, which the batch-level handler
catches, so neither it nor any later record produces a row (see the
counterexample). -/
theorem C1_one_row_per_record (rows : List InRec) (w : World)
    (h : ∀ r ∈ rows, hasKeys r = true) :
    (runBatch rows w).1.length = rows.length ∧
    (runBatch rows w).1.map (fun o => (o.1, o.2.1)) = rows.map rowKey := by
  induction rows with
  | nil => exact ⟨rfl, rfl⟩
  | cons r rs ih =>
    obtain ⟨res, t, hp⟩ := processRow_ok r w (h r (List.mem_cons_self r rs))
    obtain ⟨ih1, ih2⟩ := ih (fun x hx => h x (List.mem_cons_of_mem r hx))
    unfold runBatch
    dsimp only
    rw [hp]
    dsimp only
    refine ⟨?_, ?_⟩
    · simp [ih1]
    · simp [ih2, rowKey]

/-- Claim C1, witness: a two-record batch with all keys present yields two
rows, with matching actions and usernames in order. -/
theorem C1_one_row_per_record_witness :
    (∀ r ∈ [recCreateJdoe, recDeleteAnn], hasKeys r = true) ∧
    ((runBatch [recCreateJdoe, recDeleteAnn] wEmptyDir).1.length =
        [recCreateJdoe, recDeleteAnn].length ∧
      (runBatch [recCreateJdoe, recDeleteAnn] wEmptyDir).1.map (fun o => (o.1, o.2.1)) =
        [recCreateJdoe, recDeleteAnn].map rowKey) :=
  ⟨by decide, C1_one_row_per_record [recCreateJdoe, recDeleteAnn] wEmptyDir (by decide)⟩

/-- Claim C1, counterexample to the claim as stated: a one-record batch
whose record lacks the username key produces zero output rows, not one. -/
theorem C1_missing_key_counterexample :
    (runBatch [recNoUsernameKey] wEmptyDir).1.length ≠
      ([recNoUsernameKey] : List InRec).length := by
  decide

/-- Claim C2 (corrected): the Action Processor's handler functions never
throw past their boundary — for every argument values (empty ones
included) and every remote behavior, `create`, `update` and `delete`
return a result normally, converting every failure path (empty required
field, transport exception, non-success response) into a result string.
The claim as stated is false for a record whose required key is absent
entirely: the `KeyError` raised while extracting the handler arguments in
the batch loop escapes and aborts the remaining records (see the
counterexample). -/
theorem C2_handlers_never_throw (u g s p nu ld du : String) (w : World) :
    (∃ r t, create u g s p w = (.ok r, t)) ∧
    (∃ r t, update u nu ld w = (.ok r, t)) ∧
    (∃ r t, delete du w = (.ok r, t)) :=
  ⟨create_no_raise u g s p w, update_no_raise u nu ld w, delete_no_raise du w⟩

/-- Claim C2, counterexample to the claim as stated: a create record whose
givenName key is absent makes its iteration raise `KeyError` instead of
producing an Error result, and the following well-formed delete record is
never processed — the batch's data rows are empty. -/
theorem C2_key_error_counterexample :
    (processRow recNoGivenNameKey wEmptyDir).1 = .error PyExc.keyError ∧
    (runBatch [recNoGivenNameKey, recDeleteAnn] wEmptyDir).1 = [] :=
  ⟨rfl, rfl⟩

/-- Claim C3 (confirmed): when the remote lookup fails entirely — the
HTTP call raises, or it returns a non-200 status — `findUser` reports
`true` ("exists"); consequently a Create record with non-empty fields
yields the already-exists error with no create call issued (its trace is
the lookup only), and Update and Delete records proceed as if the user
exists: neither returns the not-found error, and Delete goes on to issue
its delete call. -/
theorem C3_failed_lookup_reports_exists (u g s p nu ld : String) (w : World)
    (hu : ¬ u = "") (hg : ¬ g = "") (hs : ¬ s = "") (hp : ¬ p = "")
    (hnu : ¬ nu = "") (hld : ¬ ld = "")
    (hfail : lookupFailed (u ++ "@" ++ w.domain) w) :
    (findUser (u ++ "@" ++ w.domain) w).1 = true ∧
    create u g s p w = (.ok "ERROR: username already exists in Dialpad!",
      [Call.lookup (u ++ "@" ++ w.domain)]) ∧
    (∃ r, (update u nu ld w).1 = .ok r ∧
      r ≠ "ERROR: user could not be found in Dialpad!") ∧
    (∃ r, (delete u w).1 = .ok r ∧
      r ≠ "ERROR: user could not be found in Dialpad!") ∧
    (delete u w).2 = [Call.lookup (u ++ "@" ++ w.domain),
      Call.deleteCall (u ++ "@" ++ w.domain)] := by
  have hex : (findUser (u ++ "@" ++ w.domain) w).1 = true := by
    rw [findUser_of_failed _ _ hfail]
  exact ⟨hex, create_already_exists u g s p w hu hg hs hp hex,
    update_proceeds u nu ld w hu hnu hld hex,
    (delete_proceeds u w hu hex).2, (delete_proceeds u w hu hex).1⟩

/-- Claim C3, witness: against a world whose lookup call raises, the
conservative behavior is exhibited on concrete inputs. -/
theorem C3_failed_lookup_reports_exists_witness :
    lookupFailed ("u" ++ "@" ++ wLookupDown.domain) wLookupDown ∧
    ((findUser ("u" ++ "@" ++ wLookupDown.domain) wLookupDown).1 = true ∧
      create "u" "g" "s" "p" wLookupDown =
        (.ok "ERROR: username already exists in Dialpad!",
          [Call.lookup ("u" ++ "@" ++ wLookupDown.domain)]) ∧
      (∃ r, (update "u" "n" "False" wLookupDown).1 = .ok r ∧
        r ≠ "ERROR: user could not be found in Dialpad!") ∧
      (∃ r, (delete "u" wLookupDown).1 = .ok r ∧
        r ≠ "ERROR: user could not be found in Dialpad!") ∧
      (delete "u" wLookupDown).2 = [Call.lookup ("u" ++ "@" ++ wLookupDown.domain),
        Call.deleteCall ("u" ++ "@" ++ wLookupDown.domain)]) :=
  ⟨Or.inl rfl,
    C3_failed_lookup_reports_exists "u" "g" "s" "p" "n" "False" wLookupDown
      (by decide) (by decide) (by decide) (by decide) (by decide) (by decide)
      (Or.inl rfl)⟩

/-- Claim C4 (confirmed): a Create record with all required fields
non-empty whose derived principal name already exists remotely produces
the already-exists error, and its trace is the lookup alone — in
particular no create call is issued. -/
theorem C4_create_duplicate_rejected (u g s p : String) (w : World)
    (hu : ¬ u = "") (hg : ¬ g = "") (hs : ¬ s = "") (hp : ¬ p = "")
    (hex : (findUser (u ++ "@" ++ w.domain) w).1 = true) :
    create u g s p w = (.ok "ERROR: username already exists in Dialpad!",
      [Call.lookup (u ++ "@" ++ w.domain)]) ∧
    ∀ c ∈ (create u g s p w).2, isCreateCall c = false := by
  have h := create_already_exists u g s p w hu hg hs hp hex
  refine ⟨h, ?_⟩
  rw [h]
  intro c hc
  simp at hc
  subst hc
  rfl

/-- Claim C4, witness: in a world where every lookup body contains the
queried principal name, a concrete create request is rejected without a
create call. -/
theorem C4_create_duplicate_rejected_witness :
    (findUser ("u" ++ "@" ++ wHasUser.domain) wHasUser).1 = true ∧
    (create "u" "g" "s" "p" wHasUser =
        (.ok "ERROR: username already exists in Dialpad!",
          [Call.lookup ("u" ++ "@" ++ wHasUser.domain)]) ∧
      ∀ c ∈ (create "u" "g" "s" "p" wHasUser).2, isCreateCall c = false) :=
  ⟨by rfl,
    C4_create_duplicate_rejected "u" "g" "s" "p" wHasUser
      (by decide) (by decide) (by decide) (by decide) (by rfl)⟩

/-- Claim C5 (confirmed): an Update record with non-empty fields, an
existing user, and a changed username sends exactly one advisory mail,
returns the rename-not-supported error — for every mail-delivery outcome,
since the world is arbitrary — and issues no suspend/reactivate call. -/
theorem C5_rename_notifies_once (u nu ld : String) (w : World)
    (hu : ¬ u = "") (hnu : ¬ nu = "") (hld : ¬ ld = "")
    (hdiff : u ≠ nu)
    (hex : (findUser (u ++ "@" ++ w.domain) w).1 = true) :
    update u nu ld w =
      (.ok "ERROR: renaming users in Dialpad is not supported - emailed Dialpad admin!",
       [Call.lookup (u ++ "@" ++ w.domain),
        Call.mail w.FROM w.TO ("Rename Dialpad user: " ++ u ++ " to " ++ nu)
          "Please rename Dialpad user account manually."]) ∧
    ((update u nu ld w).2.filter isMailCall).length = 1 ∧
    ∀ c ∈ (update u nu ld w).2, isUpdateCall c = false := by
  have h := update_rename u nu ld w hu hnu hld hex hdiff
  refine ⟨h, ?_, ?_⟩
  · rw [h]
    rfl
  · rw [h]
    intro c hc
    simp at hc
    rcases hc with hc | hc <;> subst hc <;> rfl

/-- Claim C5, witness: a concrete rename request against a world where the
user exists and mail delivery succeeds. -/
theorem C5_rename_notifies_once_witness :
    (findUser ("ann" ++ "@" ++ wHasUser.domain) wHasUser).1 = true ∧
    (update "ann" "ann2" "False" wHasUser =
        (.ok "ERROR: renaming users in Dialpad is not supported - emailed Dialpad admin!",
          [Call.lookup ("ann" ++ "@" ++ wHasUser.domain),
            Call.mail wHasUser.FROM wHasUser.TO
              ("Rename Dialpad user: " ++ "ann" ++ " to " ++ "ann2")
              "Please rename Dialpad user account manually."]) ∧
      ((update "ann" "ann2" "False" wHasUser).2.filter isMailCall).length = 1 ∧
      ∀ c ∈ (update "ann" "ann2" "False" wHasUser).2, isUpdateCall c = false) :=
  ⟨by rfl,
    C5_rename_notifies_once "ann" "ann2" "False" wHasUser
      (by decide) (by decide) (by decide) (by decide) (by rfl)⟩

/-- Claim C6 (confirmed): an Update or Delete record with non-empty fields
whose derived principal name does not exist remotely yields the
could-not-be-found error, and its trace is the lookup alone — so no
suspend/reactivate or delete call is issued, and in the Update case no
rename mail is sent either, the existence check preceding the rename
check. -/
theorem C6_absent_user_rejected (u nu ld du : String) (w : World)
    (hu : ¬ u = "") (hnu : ¬ nu = "") (hld : ¬ ld = "") (hdu : ¬ du = "")
    (hne : (findUser (u ++ "@" ++ w.domain) w).1 = false)
    (hdne : (findUser (du ++ "@" ++ w.domain) w).1 = false) :
    update u nu ld w = (.ok "ERROR: user could not be found in Dialpad!",
      [Call.lookup (u ++ "@" ++ w.domain)]) ∧
    delete du w = (.ok "ERROR: user could not be found in Dialpad!",
      [Call.lookup (du ++ "@" ++ w.domain)]) :=
  ⟨update_not_found u nu ld w hu hnu hld hne,
    delete_not_found du w hdu hdne⟩

/-- Claim C6, witness: against an empty directory, a rename-style update
of a missing user and a delete of a missing user are both rejected at the
existence check. -/
theorem C6_absent_user_rejected_witness :
    (findUser ("ann" ++ "@" ++ wEmptyDir.domain) wEmptyDir).1 = false ∧
    (findUser ("cid" ++ "@" ++ wEmptyDir.domain) wEmptyDir).1 = false ∧
    (update "ann" "bob" "True" wEmptyDir =
        (.ok "ERROR: user could not be found in Dialpad!",
          [Call.lookup ("ann" ++ "@" ++ wEmptyDir.domain)]) ∧
      delete "cid" wEmptyDir =
        (.ok "ERROR: user could not be found in Dialpad!",
          [Call.lookup ("cid" ++ "@" ++ wEmptyDir.domain)])) :=
  ⟨by rfl, by rfl,
    C6_absent_user_rejected "ann" "bob" "True" "cid" wEmptyDir
      (by decide) (by decide) (by decide) (by decide) (by rfl) (by rfl)⟩

/-- Claim C7 (confirmed): a record with an empty required field for its
action is rejected with an Error naming an empty field, and its trace is
empty — no lookup, create, update or delete call is made.  The handlers
check the fields their Python `locals()` hold: create checks username,
givenName, sn and ou (the organizational unit parameter), update checks
username, newusername and loginDisabled, delete checks username. -/
theorem C7_validation_before_network (u g s p nu ld du : String) (w : World) :
    (u = "" ∨ g = "" ∨ s = "" ∨ p = "" →
      ∃ fv ∈ [("username", u), ("givenName", g), ("sn", s), ("ou", p)],
        fv.2 = "" ∧ create u g s p w = (.ok (missingMsg fv.1), [])) ∧
    (u = "" ∨ nu = "" ∨ ld = "" →
      ∃ fv ∈ [("username", u), ("newusername", nu), ("loginDisabled", ld)],
        fv.2 = "" ∧ update u nu ld w = (.ok (missingMsg fv.1), [])) ∧
    (du = "" → delete du w = (.ok (missingMsg "username"), [])) :=
  ⟨fun h => create_missing u g s p w h,
    fun h => update_missing u nu ld w h,
    fun h => delete_missing du w h⟩

/-- Claim C7, witness: concrete empty-field records of each action are
rejected naming an empty field, with an empty call trace. -/
theorem C7_validation_before_network_witness :
    (∃ fv ∈ [("username", ""), ("givenName", "Jane"), ("sn", "Doe"), ("ou", "Biology")],
      fv.2 = "" ∧ create "" "Jane" "Doe" "Biology" wEmptyDir = (.ok (missingMsg fv.1), [])) ∧
    (∃ fv ∈ [("username", "ann"), ("newusername", "ann"), ("loginDisabled", "")],
      fv.2 = "" ∧ update "ann" "ann" "" wEmptyDir = (.ok (missingMsg fv.1), [])) ∧
    delete "" wEmptyDir = (.ok (missingMsg "username"), []) :=
  ⟨(C7_validation_before_network "" "Jane" "Doe" "Biology" "x" "x" "x" wEmptyDir).1
      (Or.inl rfl),
    (C7_validation_before_network "ann" "x" "x" "x" "ann" "" "x" wEmptyDir).2.1
      (Or.inr (Or.inr rfl)),
    (C7_validation_before_network "x" "x" "x" "x" "x" "x" "" wEmptyDir).2.2 rfl⟩

/-- Claim C8 (confirmed): an Update record with non-empty fields, an
existing user and an unchanged username requests the suspend state exactly
when `loginDisabled` is the literal string True — matching is strict, so
any other value, such as lowercase true or False, requests reactivate —
and when the remote call returns a response, status 200 maps to the
update-success result and any other status to the could-not-update
error. -/
theorem C8_suspend_strict_matching (u ld : String) (w : World) (st : Nat) (b : String)
    (hu : ¬ u = "") (hld : ¬ ld = "")
    (hex : (findUser (u ++ "@" ++ w.domain) w).1 = true)
    (hresp : w.updateResp (u ++ "@" ++ w.domain)
        (if ld = "True" then "suspend" else "reactivate") = .ok (st, b)) :
    update u u ld w =
      (.ok (if st = 200 then "SUCCESS: user was updated in Dialpad."
            else "ERROR: could not update Dialpad user."),
       [Call.lookup (u ++ "@" ++ w.domain),
        Call.updateCall (u ++ "@" ++ w.domain)
          (if ld = "True" then "suspend" else "reactivate")]) ∧
    (ld = "True" →
      Call.updateCall (u ++ "@" ++ w.domain) "suspend" ∈ (update u u ld w).2) ∧
    (¬ ld = "True" →
      Call.updateCall (u ++ "@" ++ w.domain) "reactivate" ∈ (update u u ld w).2) := by
  have h := update_state u ld w st b hu hld hex hresp
  refine ⟨h, ?_, ?_⟩
  · intro hT
    rw [h]
    simp [if_pos hT]
  · intro hT
    rw [h]
    simp [if_neg hT]

/-- Claim C8, witness: with the lowercase string true, strict matching
requests reactivate (not suspend), and the 200 response yields the
update-success result. -/
theorem C8_suspend_strict_matching_witness :
    (findUser ("ann" ++ "@" ++ wHasUser.domain) wHasUser).1 = true ∧
    wHasUser.updateResp ("ann" ++ "@" ++ wHasUser.domain)
        (if "true" = "True" then "suspend" else "reactivate") = .ok (200, "updated") ∧
    (update "ann" "ann" "true" wHasUser =
        (.ok (if 200 = 200 then "SUCCESS: user was updated in Dialpad."
              else "ERROR: could not update Dialpad user."),
          [Call.lookup ("ann" ++ "@" ++ wHasUser.domain),
            Call.updateCall ("ann" ++ "@" ++ wHasUser.domain)
              (if "true" = "True" then "suspend" else "reactivate")]) ∧
      ("true" = "True" →
        Call.updateCall ("ann" ++ "@" ++ wHasUser.domain) "suspend" ∈
          (update "ann" "ann" "true" wHasUser).2) ∧
      (¬ "true" = "True" →
        Call.updateCall ("ann" ++ "@" ++ wHasUser.domain) "reactivate" ∈
          (update "ann" "ann" "true" wHasUser).2)) :=
  ⟨by rfl, by rfl,
    C8_suspend_strict_matching "ann" "true" wHasUser 200 "updated"
      (by decide) (by decide) (by rfl) (by rfl)⟩

/-- Claim C9 (confirmed): a Create record with non-empty fields for a
fresh user issues exactly one create call carrying the office URL fragment
computed from the mapping, and succeeds on a 200 response; an absent
mapping and a mapping to the empty string both produce the empty fragment
— creation proceeds with no office parameter — while a non-empty mapping
contributes its office key. -/
theorem C9_missing_office_not_error (u g s p : String) (w : World) (b : String)
    (hu : ¬ u = "") (hg : ¬ g = "") (hs : ¬ s = "") (hp : ¬ p = "")
    (hne : (findUser (u ++ "@" ++ w.domain) w).1 = false)
    (hresp : w.createResp (u ++ "@" ++ w.domain) g s (officeOf p w) = .ok (200, b)) :
    create u g s p w = (.ok "SUCCESS: user was created in Dialpad.",
      [Call.lookup (u ++ "@" ++ w.domain),
       Call.createCall (u ++ "@" ++ w.domain) g s (officeOf p w)]) ∧
    (w.dept p = none → officeOf p w = "") ∧
    (w.dept p = some "" → officeOf p w = "") ∧
    ∀ k, w.dept p = some k → ¬ k = "" → officeOf p w = "&office_key=" ++ k := by
  refine ⟨create_trace_no_lookup_success u g s p w b hu hg hs hp hne hresp, ?_, ?_, ?_⟩
  · intro h
    unfold officeOf findOfficeKey
    rw [h]
  · intro h
    unfold officeOf findOfficeKey
    rw [h]
    rfl
  · intro k hk hkne
    unfold officeOf findOfficeKey
    rw [hk]
    exact if_neg hkne

/-- Claim C9, witness: the end-to-end example — creating jdoe with
organizational unit Biology, which the sample settings map to the empty
string, succeeds with an empty office fragment in the create call. -/
theorem C9_missing_office_not_error_witness :
    (findUser ("jdoe" ++ "@" ++ wEmptyDir.domain) wEmptyDir).1 = false ∧
    wEmptyDir.createResp ("jdoe" ++ "@" ++ wEmptyDir.domain) "Jane" "Doe"
        (officeOf "Biology" wEmptyDir) = .ok (200, "created") ∧
    officeOf "Biology" wEmptyDir = "" ∧
    (create "jdoe" "Jane" "Doe" "Biology" wEmptyDir =
        (.ok "SUCCESS: user was created in Dialpad.",
          [Call.lookup ("jdoe" ++ "@" ++ wEmptyDir.domain),
            Call.createCall ("jdoe" ++ "@" ++ wEmptyDir.domain) "Jane" "Doe"
              (officeOf "Biology" wEmptyDir)]) ∧
      (wEmptyDir.dept "Biology" = none → officeOf "Biology" wEmptyDir = "") ∧
      (wEmptyDir.dept "Biology" = some "" → officeOf "Biology" wEmptyDir = "") ∧
      ∀ k, wEmptyDir.dept "Biology" = some k → ¬ k = "" →
        officeOf "Biology" wEmptyDir = "&office_key=" ++ k) :=
  ⟨by rfl, by rfl, by rfl,
    C9_missing_office_not_error "jdoe" "Jane" "Doe" "Biology" wEmptyDir "created"
      (by decide) (by decide) (by decide) (by decide) (by rfl) (by rfl)⟩

/-- Claim C10 (confirmed): the existence check reports false exactly when
the lookup returns HTTP 200 with a body in which the principal name does
not occur as a substring; hence any 200 body merely containing the name as
a substring — not necessarily as an exact user record — counts as "user
exists". -/
theorem C10_substring_existence (upn : String) (w : World) :
    (findUser upn w).1 = false ↔
      ∃ b, w.lookupResp upn = .ok (200, b) ∧ pyIn upn b = false :=
  findUser_false_iff upn w

/-- Claim C10, witness: an empty 200 body makes the check report
nonexistence for a concrete name. -/
theorem C10_substring_existence_witness :
    (findUser "jdoe@d.edu" wEmptyDir).1 = false :=
  (C10_substring_existence "jdoe@d.edu" wEmptyDir).mpr ⟨"", rfl, rfl⟩

end Dialpad
